import Mathlib

/-!
Shallow embedding of `csv2bufr.py` (GEUS-Glaciology-and-Climate/csv2bufr).

The script converts per-row weather-station observations to BUFR messages via
the eccodes library.  We model:
  * Python numeric/str values as `Value`; floats are idealised as exact
    fractions (`Frac`, an integer numerator/denominator pair, related to `ℚ`
    through `Frac.toRat`);
  * a pandas row as a function from column name to `Value`;
  * the eccodes calls performed on one message as a straight-line program of
    `Instr`uctions, interpreted by `runProg` against an `Oracle` that says
    which `codes_set` calls raise `CodesInternalError`;
  * a `TypeError`/`ValueError` from Python itself (bad `datetime`, arithmetic
    on a string) as `Instr.fatalError` / `RunResult.fatal`, which is *not*
    caught by the script's `except CodesInternalError` handlers;
  * the observable effects (calls into eccodes, log prints, file writes) as a
    list of `Event`s.
-/

/-- An exact fraction: our idealisation of a Python float.  All fractions
built by the embedding have a positive denominator. -/
structure Frac where
  num : Int
  den : Int
deriving DecidableEq, Repr

/-- The rational number a fraction denotes. -/
def Frac.toRat (a : Frac) : ℚ := (a.num : ℚ) / (a.den : ℚ)

/-- Fraction addition. -/
def Frac.addF (a b : Frac) : Frac :=
  ⟨a.num * b.den + b.num * a.den, a.den * b.den⟩

/-- Fraction subtraction. -/
def Frac.subF (a b : Frac) : Frac :=
  ⟨a.num * b.den - b.num * a.den, a.den * b.den⟩

/-- Multiplication of a fraction by an integer. -/
def Frac.mulI (a : Frac) (k : Int) : Frac := ⟨a.num * k, a.den⟩

/-- Numeric equality test of two fractions (cross multiplication). -/
def Frac.eqF (a b : Frac) : Bool := a.num * b.den == b.num * a.den

/-- The fraction denoting an integer. -/
def Frac.ofInt (n : Int) : Frac := ⟨n, 1⟩

theorem Frac.toRat_addF (a b : Frac) (ha : a.den ≠ 0) (hb : b.den ≠ 0) :
    (a.addF b).toRat = a.toRat + b.toRat := by
  have ha' : (a.den : ℚ) ≠ 0 := by exact_mod_cast ha
  have hb' : (b.den : ℚ) ≠ 0 := by exact_mod_cast hb
  unfold Frac.addF Frac.toRat
  push_cast
  field_simp

theorem Frac.toRat_subF (a b : Frac) (ha : a.den ≠ 0) (hb : b.den ≠ 0) :
    (a.subF b).toRat = a.toRat - b.toRat := by
  have ha' : (a.den : ℚ) ≠ 0 := by exact_mod_cast ha
  have hb' : (b.den : ℚ) ≠ 0 := by exact_mod_cast hb
  unfold Frac.subF Frac.toRat
  push_cast
  field_simp
  ring

theorem Frac.toRat_mulI (a : Frac) (k : Int) :
    (a.mulI k).toRat = a.toRat * (k : ℚ) := by
  unfold Frac.mulI Frac.toRat
  push_cast
  ring

theorem Frac.toRat_ofInt (n : Int) : (Frac.ofInt n).toRat = (n : ℚ) := by
  simp [Frac.ofInt, Frac.toRat]

theorem Frac.eqF_ofInt_iff (a : Frac) (n : Int) (ha : a.den ≠ 0) :
    a.eqF (Frac.ofInt n) = true ↔ a.toRat = (n : ℚ) := by
  have ha' : (a.den : ℚ) ≠ 0 := Int.cast_ne_zero.mpr ha
  have h1 : a.eqF (Frac.ofInt n) = true ↔ a.num = n * a.den := by
    unfold Frac.eqF Frac.ofInt
    simp
  rw [h1]
  unfold Frac.toRat
  rw [div_eq_iff ha']
  constructor
  · intro h
    exact_mod_cast h
  · intro h
    exact_mod_cast h

/-- A Python value as it occurs in the script: `int`, `float` (idealised as an
exact fraction) or `str`. -/
inductive Value where
  | vInt : Int → Value
  | vFloat : Frac → Value
  | vStr : String → Value
deriving DecidableEq, Repr

/-- A pandas dataframe row: column name to value. -/
def Row : Type := String → Value

/-- The lookup table `df2` (columns `CSV_column`, `standard_name`, `type`). -/
def Lookup : Type := List (String × String × String)

/-- Which `codes_set` calls raise `CodesInternalError`: `o key value = true`
means that call raises (and performs no set). -/
def Oracle : Type := String → Value → Bool

/-- Python `value == n` for an `int` literal `n`: true exactly when `value` is
an `int` or `float` numerically equal to `n` (a `str` never equals an `int`).
This is also `isinstance(value, int) or isinstance(value, float)` combined
with `value == nullvalue` as in `setBUFRvalue`. -/
def pyEqInt : Value → Int → Bool
  | .vInt m, n => m == n
  | .vFloat f, n => f.eqF (Frac.ofInt n)
  | .vStr _, _ => false

/-- Python `value + q` for a float literal `q`; `TypeError` (`none`) on `str`. -/
def pyAddF : Value → Frac → Option Value
  | .vInt m, q => some (.vFloat ((Frac.ofInt m).addF q))
  | .vFloat x, q => some (.vFloat (x.addF q))
  | .vStr _, _ => none

/-- Python `value - q` for a float literal `q`; `TypeError` (`none`) on `str`. -/
def pySubF : Value → Frac → Option Value
  | .vInt m, q => some (.vFloat ((Frac.ofInt m).subF q))
  | .vFloat x, q => some (.vFloat (x.subF q))
  | .vStr _, _ => none

/-- Python `a + b` on two values (`str + str` concatenates; mixing a `str`
with a number is a `TypeError`). -/
def pyAddVal : Value → Value → Option Value
  | .vInt a, .vInt b => some (.vInt (a + b))
  | .vInt a, .vFloat b => some (.vFloat ((Frac.ofInt a).addF b))
  | .vFloat a, .vInt b => some (.vFloat (a.addF (Frac.ofInt b)))
  | .vFloat a, .vFloat b => some (.vFloat (a.addF b))
  | .vStr a, .vStr b => some (.vStr (a ++ b))
  | _, _ => none

/-- Python `value * k` for an `int` literal `k` (`str * int` repeats). -/
def pyMul : Value → Int → Value
  | .vInt m, k => .vInt (m * k)
  | .vFloat q, k => .vFloat (q.mulI k)
  | .vStr s, k => .vStr (String.join (List.replicate k.toNat s))

/-- Python `int(value)`: truncation toward zero for numbers, digit parsing for
strings; `none` models the `ValueError`/`TypeError` on a non-numeric string. -/
def pyIntOf : Value → Option Int
  | .vInt m => some m
  | .vFloat q => some (Int.tdiv q.num q.den)
  | .vStr s => s.toInt?

/-- Observable effects of the script on one run. -/
inductive Event where
  | newMessage : Event
  | set : String → Value → Event
  | logError : String → Event
  | logRow : Event
  | write : Event
  | release : Event
deriving DecidableEq, Repr

/-- One call site inside the per-row `try` block of `getBUFR`:
`rawSet` is a bare `codes_set` (an exception escapes to the row handler),
`safeSet` is a call through `setBUFRvalue` (exception caught per field),
`fatalError` marks a Python-level `TypeError`/`ValueError` raised while
building an argument (not caught by `except CodesInternalError`). -/
inductive Instr where
  | rawSet : String → Value → Instr
  | safeSet : String → Value → Instr
  | fatalError : Instr
deriving DecidableEq, Repr

/-- Outcome of running (part of) the body of the per-row `try` block. -/
inductive RunResult where
  | ok : RunResult
  | raised : RunResult
  | fatal : RunResult
deriving DecidableEq, Repr

/-- `setBUFRvalue(ibufr, b_name, value, nullvalue=-999)`: skip the call when
the value is an `int`/`float` equal to `nullvalue`; otherwise `codes_set`,
catching `CodesInternalError` and printing.  Returns the events performed;
it never lets an exception escape. -/
def setBUFRvalue (o : Oracle) (b_name : String) (value : Value)
    (nullvalue : Int := -999) : List Event :=
  if pyEqInt value nullvalue then []
  else if o b_name value then [.logError b_name]
  else [.set b_name value]

/-- `getTempK(row, nullvalue=-999)`: Celsius to Kelvin, preserving the
sentinel; `none` is the `TypeError` on a string field. -/
def getTempK (row : Row) (nullvalue : Int := -999) : Option Value :=
  if pyEqInt (row "AirTemperature(C)") nullvalue then some (.vInt nullvalue)
  else pyAddF (row "AirTemperature(C)") ⟨27315, 100⟩

/-- `getPressPa(row, nullvalue=-999)`: hPa to Pa, preserving the sentinel.
Total, because Python `value * 100` is defined even on `str`. -/
def getPressPa (row : Row) (nullvalue : Int := -999) : Value :=
  if pyEqInt (row "AirPressure(hPa)") nullvalue then .vInt nullvalue
  else pyMul (row "AirPressure(hPa)") 100

/-- A Python `datetime` (as built by `getBUFR`: minute and second are 0). -/
structure Timestamp where
  year : Int
  month : Int
  day : Int
  hour : Int
  minute : Int
  second : Int
deriving DecidableEq, Repr

/-- Gregorian leap year, as Python's `datetime` uses. -/
def isLeapYear (y : Int) : Bool :=
  (y % 4 == 0 && y % 100 != 0) || (y % 400 == 0)

/-- Days in a month, as Python's `datetime` validates. -/
def daysInMonth (y m : Int) : Int :=
  if m == 2 then (if isLeapYear y then 29 else 28)
  else if m == 4 || m == 6 || m == 9 || m == 11 then 30
  else 31

/-- Argument validation done by Python's `datetime(y, m, d, h, mi, s)`;
out-of-range arguments raise `ValueError`. -/
def datetimeValid (y m d h mi s : Int) : Bool :=
  1 ≤ y && y ≤ 9999 && 1 ≤ m && m ≤ 12 && 1 ≤ d && d ≤ daysInMonth y m &&
  0 ≤ h && h ≤ 23 && 0 ≤ mi && mi ≤ 59 && 0 ≤ s && s ≤ 59

/-- `setTemplate(ibufr, timestamp, ed=4, master=0, vers=13, template=307080,
key='unexpandedDescriptors')`: the sequence of bare `codes_set` calls. -/
def setTemplate (timestamp : Timestamp) (ed : Int := 4) (master : Int := 0)
    (vers : Int := 13) (template : Int := 307080)
    (key : String := "unexpandedDescriptors") : List Instr :=
  [ .rawSet "edition" (.vInt ed),
    .rawSet "masterTableNumber" (.vInt master),
    .rawSet "masterTablesVersionNumber" (.vInt vers),
    .rawSet "localTablesVersionNumber" (.vInt 0),
    .rawSet "bufrHeaderCentre" (.vInt 98),
    .rawSet "bufrHeaderSubCentre" (.vInt 0),
    .rawSet "updateSequenceNumber" (.vInt 0),
    .rawSet "dataCategory" (.vInt 0),
    .rawSet "internationalDataSubCategory" (.vInt 7),
    .rawSet "dataSubCategory" (.vInt 7),
    .rawSet "observedData" (.vInt 1),
    .rawSet "compressedData" (.vInt 0),
    .rawSet "typicalYear" (.vInt timestamp.year),
    .rawSet "typicalMonth" (.vInt timestamp.month),
    .rawSet "typicalDay" (.vInt timestamp.day),
    .rawSet "typicalHour" (.vInt timestamp.hour),
    .rawSet "typicalMinute" (.vInt timestamp.minute),
    .rawSet "typicalSecond" (.vInt timestamp.second),
    .rawSet key (.vInt template) ]

/-- `setStation(ibufr, stationNumber, blockNumber)`: the four bare
`codes_set` calls; note the arguments are not used. -/
def setStation (stationNumber blockNumber : Int) : List Instr :=
  [ .rawSet "stationNumber" (.vInt 1),
    .rawSet "blockNumber" (.vInt 1),
    .rawSet "stationType" (.vInt 0),
    .rawSet "instrumentationForWindMeasurement" (.vInt 6) ]

/-- Emit a `safeSet` of `k` from an arithmetic result, or the Python
exception when the arithmetic itself raised a `TypeError`. -/
def safeSetOf (k : String) : Option Value → List Instr
  | some v => [.safeSet k v]
  | none => [.fatalError]

/-- Emit a bare `codes_set` of `k` from an arithmetic result, or the Python
exception when the arithmetic itself raised a `TypeError`. -/
def rawSetOf (k : String) : Option Value → List Instr
  | some v => [.rawSet k v]
  | none => [.fatalError]

/-- `setAWSvariables(ibufr, row, nullValue=-999)`: the call sites, in source
order.  The first block goes through `setBUFRvalue`; the time-period,
time-significance and sensor-height blocks are bare `codes_set` calls behind
`!= nullValue` guards. -/
def setAWSvariables (row : Row) (nullValue : Int := -999) : List Instr :=
  [ .safeSet "year" (row "Year"),
    .safeSet "month" (row "MonthOfYear"),
    .safeSet "day" (row "DayOfMonth"),
    .safeSet "relativeHumidity" (row "RelativeHumidity(%)"),
    .safeSet "windSpeed" (row "WindSpeed(m/s)"),
    .safeSet "windDirection" (row "WindDirection(d)") ] ++
  safeSetOf "airTemperature" (getTempK row nullValue) ++
  [ .safeSet "pressure" (getPressPa row nullValue),
    .safeSet "cloudCoverTotal" (row "CloudCover"),
    .safeSet "#1#shortWaveRadiationIntegratedOverPeriodSpecified"
      (row "ShortwaveRadiationDown_Cor(W/m2)"),
    .safeSet "#2#shortWaveRadiationIntegratedOverPeriodSpecified"
      (row "ShortwaveRadiationUp_Cor(W/m2)"),
    .safeSet "#1#longWaveRadiationIntegratedOverPeriodSpecified"
      (row "LongwaveRadiationDown(W/m2)"),
    .safeSet "#2#longWaveRadiationIntegratedOverPeriodSpecified"
      (row "LongwaveRadiationUp(W/m2)"),
    .safeSet "latitude" (row "LatitudeGPS(degN)"),
    .safeSet "longitude" (row "LongitudeGPS(degW)"),
    .safeSet "heightOfStationGroundAboveMeanSeaLevel" (row "ElevationGPS(m)"),
    .safeSet "heightOfSensorAboveLocalGroundOrDeckOfMarinePlatform"
      (row "HeightSensorBoom(m)") ] ++
  (if ¬ pyEqInt (row "WindSpeed(m/s)") nullValue then
    [.rawSet "#11#timePeriod" (.vInt (-10))] else []) ++
  (if ¬ pyEqInt (row "ShortwaveRadiationDown_Cor(W/m2)") nullValue then
    [.rawSet "#14#timePeriod" (.vInt (-10))] else []) ++
  (if ¬ pyEqInt (row "LongwaveRadiationDown(W/m2)") nullValue then
    [.rawSet "#15#timePeriod" (.vInt (-10))] else []) ++
  [ .rawSet "#1#timeSignificance" (.vInt 2) ] ++
  (if ¬ pyEqInt (row "WindSpeed(m/s)") nullValue then
    [.rawSet "#2#timeSignificance" (.vInt 2)] else []) ++
  (if ¬ pyEqInt (row "HeightSensorBoom(m)") nullValue then
    rawSetOf "#2#heightOfSensorAboveLocalGroundOrDeckOfMarinePlatform"
      (pySubF (row "HeightSensorBoom(m)") ⟨1, 10⟩) ++
    rawSetOf "#8#heightOfSensorAboveLocalGroundOrDeckOfMarinePlatform"
      (pyAddF (row "HeightSensorBoom(m)") ⟨4, 10⟩) ++
    (if ¬ pyEqInt (row "ElevationGPS(m)") nullValue then
      rawSetOf "heightOfBarometerAboveMeanSeaLevel"
        (pyAddVal (row "ElevationGPS(m)") (row "HeightSensorBoom(m)"))
     else [])
   else [])

/-- Run the body of the per-row `try` block: a bare `codes_set` that raises
aborts with `raised` (caught by the row handler); a `setBUFRvalue` call never
raises; a Python-level error aborts with `fatal` (caught by nothing). -/
def runProg (o : Oracle) : List Instr → List Event × RunResult
  | [] => ([], .ok)
  | .rawSet k v :: rest =>
    if o k v then ([], .raised)
    else (.set k v :: (runProg o rest).1, (runProg o rest).2)
  | .safeSet k v :: rest =>
    (setBUFRvalue o k v ++ (runProg o rest).1, (runProg o rest).2)
  | .fatalError :: _ => ([], .fatal)

/-- `datetime(int(r1['Year']), int(r1['MonthOfYear']), int(r1['DayOfMonth']),
int(r1['HourOfDay(UTC)']), 0, 0)`, with `none` for a raised
`ValueError`/`TypeError`. -/
def rowTimestamp (r : Row) : Option Timestamp := do
  let y ← pyIntOf (r "Year")
  let m ← pyIntOf (r "MonthOfYear")
  let d ← pyIntOf (r "DayOfMonth")
  let h ← pyIntOf (r "HourOfDay(UTC)")
  if datetimeValid y m d h 0 0 then some ⟨y, m, d, h, 0, 0⟩ else none

/-- The whole body of the per-row `try` block of `getBUFR` as a program:
timestamp, `setTemplate`, `setStation(ibufr, 1, 1)`, `setAWSvariables`, then
`codes_set(ibufr, 'pack', 1)`. -/
def rowProg (r : Row) : List Instr :=
  match rowTimestamp r with
  | none => [.fatalError]
  | some ts =>
    setTemplate ts ++ setStation 1 1 ++ setAWSvariables r ++
      [.rawSet "pack" (.vInt 1)]

/-- One iteration of the row loop of `getBUFR`:
`codes_bufr_new_from_samples`, the `try` body, then on success
`codes_write`; on `CodesInternalError` the `print(ec)`; in both cases
`codes_release`.  A `fatal` Python error skips the release and propagates. -/
def encodeRow (o : Oracle) (r : Row) : List Event × RunResult :=
  match (runProg o (rowProg r)).2 with
  | .ok => (.newMessage :: (runProg o (rowProg r)).1 ++ [.write, .release], .ok)
  | .raised =>
    (.newMessage :: (runProg o (rowProg r)).1 ++ [.logRow, .release], .raised)
  | .fatal => (.newMessage :: (runProg o (rowProg r)).1, .fatal)

/-- The row loop of `getBUFR` over `df1.iterrows()`: a `fatal` outcome aborts
the whole loop, anything else continues with the next row. -/
def getBUFRloop (o : Oracle) : List Row → List Event × RunResult
  | [] => ([], .ok)
  | r :: rest =>
    if (encodeRow o r).2 = RunResult.fatal then
      ((encodeRow o r).1, .fatal)
    else
      ((encodeRow o r).1 ++ (getBUFRloop o rest).1, (getBUFRloop o rest).2)

/-- `getBUFR(df1, df2, outBUFR, ed=4, master=0, vers=13, template=307080,
key='unexpandedDescriptors')`: open the output file and run the row loop.
Only `df1` (and the behaviour of the eccodes calls, our oracle) matter. -/
def getBUFR (o : Oracle) (df1 : List Row) (df2 : Lookup) (outBUFR : String)
    (ed : Int := 4) (master : Int := 0) (vers : Int := 13)
    (template : Int := 307080) (key : String := "unexpandedDescriptors") :
    List Event × RunResult :=
  getBUFRloop o df1

/-- `true` when `sep` is a leading segment of `s` (Python
`s.startswith(sep)` on character lists). -/
def charsStart : List Char → List Char → Bool
  | [], _ => true
  | _ :: _, [] => false
  | a :: as, b :: bs => a == b && charsStart as bs

/-- The part of `s` strictly before the first occurrence of `sep` (all of `s`
when `sep` does not occur): Python `s.split(sep)[0]` for nonempty `sep`. -/
def upToFirst (sep : List Char) : List Char → List Char
  | [] => []
  | c :: rest =>
    if charsStart sep (c :: rest) then [] else c :: upToFirst sep rest

/-- Everything after the last `sep` character: Python `s.split(sep)[-1]` for
a one-character separator. -/
def afterLastChar (sep : Char) (s : List Char) : List Char :=
  s.foldl (fun acc c => if c == sep then [] else acc ++ [c]) []

/-- Python `s[:-n]` for `n > 0`: drop the last `n` characters (empty when `s`
has at most `n` characters). -/
def dropLastChars (n : Nat) (s : List Char) : List Char :=
  s.take (s.length - n)

/-- `fname.split('/')[-1].split('.txt')[0][:-4][:-5] + '.bufr'` from the
`__main__` block. -/
def bufrNameOf (fname : String) : String :=
  ⟨dropLastChars 5 (dropLastChars 4
      (upToFirst ".txt".data (afterLastChar '/' fname.data))) ++ ".bufr".data⟩

/-- Output files produced by the `__main__` block for the discovered input
files: the loop runs over `txtFiles[0:1]`, i.e. at most the first file. -/
def mainOutputs (txtFiles : List String) : List String :=
  (txtFiles.take 1).map bufrNameOf

/-- Number of `codes_write` calls in a trace: messages in the output file. -/
def countWrites : List Event → Nat
  | [] => 0
  | .write :: rest => countWrites rest + 1
  | _ :: rest => countWrites rest

/-- `true` when the oracle raises on none of the bare `codes_set` calls of a
program (it may still raise on `setBUFRvalue` calls). -/
def rawFailFree (o : Oracle) : List Instr → Bool
  | [] => true
  | .rawSet k v :: rest => !(o k v) && rawFailFree o rest
  | _ :: rest => rawFailFree o rest

/-- A well-formed observation row used as a concrete test input. -/
def testRow : Row := fun k =>
  if k = "Year" then .vInt 2021
  else if k = "MonthOfYear" then .vInt 9
  else if k = "DayOfMonth" then .vInt 9
  else if k = "HourOfDay(UTC)" then .vInt 13
  else if k = "RelativeHumidity(%)" then .vFloat ⟨55, 1⟩
  else if k = "WindSpeed(m/s)" then .vFloat ⟨7, 2⟩
  else if k = "WindDirection(d)" then .vFloat ⟨180, 1⟩
  else if k = "AirTemperature(C)" then .vFloat ⟨20, 1⟩
  else if k = "AirPressure(hPa)" then .vFloat ⟨1013, 1⟩
  else if k = "CloudCover" then .vFloat ⟨1, 2⟩
  else if k = "ShortwaveRadiationDown_Cor(W/m2)" then .vFloat ⟨100, 1⟩
  else if k = "ShortwaveRadiationUp_Cor(W/m2)" then .vFloat ⟨50, 1⟩
  else if k = "LongwaveRadiationDown(W/m2)" then .vFloat ⟨300, 1⟩
  else if k = "LongwaveRadiationUp(W/m2)" then .vFloat ⟨310, 1⟩
  else if k = "LatitudeGPS(degN)" then .vFloat ⟨67, 1⟩
  else if k = "LongitudeGPS(degW)" then .vFloat ⟨50, 1⟩
  else if k = "ElevationGPS(m)" then .vFloat ⟨1000, 1⟩
  else if k = "HeightSensorBoom(m)" then .vFloat ⟨3, 10⟩
  else .vInt 0

/-- A row whose temperature and pressure are the sentinel. -/
def nullRow : Row := fun k =>
  if k = "AirTemperature(C)" then .vInt (-999)
  else if k = "AirPressure(hPa)" then .vFloat ⟨-999, 1⟩
  else testRow k

/-- An eccodes behaviour where no `codes_set` call raises. -/
def oracle0 : Oracle := fun _ _ => false

/-- An eccodes behaviour where exactly the bare `codes_set` of
`#1#timeSignificance` raises `CodesInternalError`. -/
def oracle1 : Oracle := fun k _ => k == "#1#timeSignificance"

/-- An eccodes behaviour where exactly the `codes_set` of `windSpeed`
(issued through `setBUFRvalue`) raises `CodesInternalError`. -/
def oracle2 : Oracle := fun k _ => k == "windSpeed"

example : (runProg oracle0 (rowProg testRow)).2 = RunResult.ok := by decide
example : (runProg oracle1 (rowProg testRow)).2 = RunResult.raised := by decide
example : (runProg oracle2 (rowProg testRow)).2 = RunResult.ok := by decide
example : getTempK testRow = some (.vFloat ⟨20 * 100 + 27315 * 1, 100⟩) := by
  decide
example : getPressPa testRow = .vFloat ⟨101300, 1⟩ := by decide
example : bufrNameOf "AWS_data/KAN_hour_v01_2021.txt" = "KAN_hour.bufr" := by
  decide
example : countWrites (getBUFRloop oracle0 [testRow, testRow]).1 = 2 := by
  decide

/-- C5: for every row whose `'AirTemperature(C)'` field is a number other
than the sentinel `-999`, `getTempK` returns that field's value plus
`273.15` (as exact rationals via `Frac.toRat`). -/
theorem getTempK_celsius_to_kelvin (r : Row) :
    (∀ f : Frac, r "AirTemperature(C)" = .vFloat f → f.den ≠ 0 →
      f.toRat ≠ (-999 : ℚ) →
      getTempK r = some (.vFloat (f.addF ⟨27315, 100⟩)) ∧
        (f.addF ⟨27315, 100⟩).toRat = f.toRat + 27315/100) ∧
    (∀ n : Int, r "AirTemperature(C)" = .vInt n → n ≠ -999 →
      getTempK r = some (.vFloat ((Frac.ofInt n).addF ⟨27315, 100⟩)) ∧
        ((Frac.ofInt n).addF ⟨27315, 100⟩).toRat = (n : ℚ) + 27315/100) := by
  constructor
  · intro f hf hden hne
    have hguard : ¬ f.eqF (Frac.ofInt (-999)) = true := by
      rw [Frac.eqF_ofInt_iff f (-999) hden]
      intro hc
      apply hne
      rw [hc]
      norm_num
    constructor
    · unfold getTempK
      rw [hf]
      simp only [pyEqInt, pyAddF]
      rw [if_neg hguard]
    · rw [Frac.toRat_addF f ⟨27315, 100⟩ hden (by decide)]
      norm_num [Frac.toRat]
  · intro n hn hne
    have hguard : ¬ ((n == (-999 : Int)) = true) := by
      simpa using hne
    constructor
    · unfold getTempK
      rw [hn]
      simp only [pyEqInt, pyAddF]
      rw [if_neg hguard]
    · rw [Frac.toRat_addF (Frac.ofInt n) ⟨27315, 100⟩ (by simp [Frac.ofInt])
        (by decide)]
      norm_num [Frac.toRat, Frac.ofInt]

theorem getTempK_celsius_to_kelvin_witness :
    (testRow "AirTemperature(C)" = Value.vFloat ⟨20, 1⟩ ∧
      (⟨20, 1⟩ : Frac).toRat ≠ (-999 : ℚ)) ∧
    (getTempK testRow = some (.vFloat ((⟨20, 1⟩ : Frac).addF ⟨27315, 100⟩)) ∧
      ((⟨20, 1⟩ : Frac).addF ⟨27315, 100⟩).toRat =
        (⟨20, 1⟩ : Frac).toRat + 27315/100) :=
  ⟨⟨by decide, by norm_num [Frac.toRat]⟩,
   (getTempK_celsius_to_kelvin testRow).1 ⟨20, 1⟩ (by decide) (by decide)
     (by norm_num [Frac.toRat])⟩

/-- C6: for every row whose `'AirPressure(hPa)'` field is a number other
than the sentinel `-999`, `getPressPa` returns that field's value times
`100` (a `float` stays a `float`, an `int` stays an `int`). -/
theorem getPressPa_hpa_to_pa (r : Row) :
    (∀ f : Frac, r "AirPressure(hPa)" = .vFloat f → f.den ≠ 0 →
      f.toRat ≠ (-999 : ℚ) →
      getPressPa r = .vFloat (f.mulI 100) ∧
        (f.mulI 100).toRat = f.toRat * 100) ∧
    (∀ n : Int, r "AirPressure(hPa)" = .vInt n → n ≠ -999 →
      getPressPa r = .vInt (n * 100)) := by
  constructor
  · intro f hf hden hne
    have hguard : ¬ f.eqF (Frac.ofInt (-999)) = true := by
      rw [Frac.eqF_ofInt_iff f (-999) hden]
      intro hc
      apply hne
      rw [hc]
      norm_num
    constructor
    · unfold getPressPa
      rw [hf]
      simp only [pyEqInt, pyMul]
      rw [if_neg hguard]
    · rw [Frac.toRat_mulI f 100]
      norm_num
  · intro n hn hne
    have hguard : ¬ ((n == (-999 : Int)) = true) := by
      simpa using hne
    unfold getPressPa
    rw [hn]
    simp only [pyEqInt, pyMul]
    rw [if_neg hguard]

theorem getPressPa_hpa_to_pa_witness :
    (testRow "AirPressure(hPa)" = Value.vFloat ⟨1013, 1⟩ ∧
      (⟨1013, 1⟩ : Frac).toRat ≠ (-999 : ℚ)) ∧
    (getPressPa testRow = .vFloat ((⟨1013, 1⟩ : Frac).mulI 100) ∧
      ((⟨1013, 1⟩ : Frac).mulI 100).toRat = (⟨1013, 1⟩ : Frac).toRat * 100) :=
  ⟨⟨by decide, by norm_num [Frac.toRat]⟩,
   (getPressPa_hpa_to_pa testRow).1 ⟨1013, 1⟩ (by decide) (by decide)
     (by norm_num [Frac.toRat])⟩

/-- C8: the lookup-table argument `df2` of `getBUFR` is never read: for any
two lookup tables and the same inputs, `getBUFR` performs the identical
sequence of operations with the identical outcome. -/
theorem getBUFR_lookup_unread (o : Oracle) (df1 : List Row)
    (df2 df2' : Lookup) (outBUFR : String) :
    getBUFR o df1 df2 outBUFR = getBUFR o df1 df2' outBUFR := rfl

/-- C9: `setStation` ignores its `stationNumber` and `blockNumber` arguments
and always issues exactly `stationNumber := 1`, `blockNumber := 1`,
`stationType := 0`, `instrumentationForWindMeasurement := 6`. -/
theorem setStation_constant (stationNumber blockNumber : Int) :
    setStation stationNumber blockNumber =
      [ .rawSet "stationNumber" (.vInt 1),
        .rawSet "blockNumber" (.vInt 1),
        .rawSet "stationType" (.vInt 0),
        .rawSet "instrumentationForWindMeasurement" (.vInt 6) ] := rfl

/-- C10: `getTempK` and `getPressPa` return exactly the sentinel `-999` when
the corresponding field equals `-999`, and `setBUFRvalue` then suppresses
that value (no `codes_set` call at all). -/
theorem conversions_preserve_sentinel (r : Row) (o : Oracle) :
    (pyEqInt (r "AirTemperature(C)") (-999) = true →
      getTempK r = some (.vInt (-999)) ∧
        setBUFRvalue o "airTemperature" (.vInt (-999)) = []) ∧
    (pyEqInt (r "AirPressure(hPa)") (-999) = true →
      getPressPa r = .vInt (-999) ∧
        setBUFRvalue o "pressure" (.vInt (-999)) = []) := by
  constructor <;> intro h
  · exact ⟨by simp [getTempK, h], by simp [setBUFRvalue, pyEqInt]⟩
  · exact ⟨by simp [getPressPa, h], by simp [setBUFRvalue, pyEqInt]⟩

theorem conversions_preserve_sentinel_witness :
    (pyEqInt (nullRow "AirTemperature(C)") (-999) = true ∧
      getTempK nullRow = some (.vInt (-999)) ∧
        setBUFRvalue oracle0 "airTemperature" (.vInt (-999)) = []) ∧
    (pyEqInt (nullRow "AirPressure(hPa)") (-999) = true ∧
      getPressPa nullRow = .vInt (-999) ∧
        setBUFRvalue oracle0 "pressure" (.vInt (-999)) = []) :=
  ⟨⟨by decide, (conversions_preserve_sentinel nullRow oracle0).1 (by decide)⟩,
   ⟨by decide, (conversions_preserve_sentinel nullRow oracle0).2 (by decide)⟩⟩

lemma mem_if_list {α : Type} {c : Prop} [Decidable c] {x : α} {l : List α}
    (h : x ∈ if c then l else []) : c ∧ x ∈ l := by
  by_cases hc : c
  · rw [if_pos hc] at h
    exact ⟨hc, h⟩
  · rw [if_neg hc] at h
    exact absurd h (List.not_mem_nil x)

lemma mem_safeSetOf {k : String} {ov : Option Value} {x : Instr}
    (h : x ∈ safeSetOf k ov) : x = .fatalError ∨ ∃ w, x = .safeSet k w := by
  cases ov with
  | none =>
    simp [safeSetOf] at h
    exact Or.inl h
  | some w =>
    simp [safeSetOf] at h
    exact Or.inr ⟨w, h⟩

lemma mem_rawSetOf {k : String} {ov : Option Value} {x : Instr}
    (h : x ∈ rawSetOf k ov) : x = .fatalError ∨ ∃ w, x = .rawSet k w := by
  cases ov with
  | none =>
    simp [rawSetOf] at h
    exact Or.inl h
  | some w =>
    simp [rawSetOf] at h
    exact Or.inr ⟨w, h⟩

/-- Every bare `codes_set` in `setAWSvariables` is either one of the constant
time-period/time-significance sets or one of the three sensor-height sets,
the latter only behind their sentinel guards. -/
lemma rawSet_mem_setAWSvariables {r : Row} {k : String} {v : Value}
    (hmem : Instr.rawSet k v ∈ setAWSvariables r) :
    k = "#11#timePeriod" ∨ k = "#14#timePeriod" ∨ k = "#15#timePeriod" ∨
    k = "#1#timeSignificance" ∨ k = "#2#timeSignificance" ∨
    (¬ pyEqInt (r "HeightSensorBoom(m)") (-999) = true ∧
      (k = "#2#heightOfSensorAboveLocalGroundOrDeckOfMarinePlatform" ∨
       k = "#8#heightOfSensorAboveLocalGroundOrDeckOfMarinePlatform" ∨
       (k = "heightOfBarometerAboveMeanSeaLevel" ∧
         ¬ pyEqInt (r "ElevationGPS(m)") (-999) = true))) := by
  unfold setAWSvariables at hmem
  simp only [List.mem_append, List.mem_cons, List.mem_singleton,
    List.not_mem_nil, or_false, false_or, reduceCtorEq] at hmem
  rcases hmem with ((((((h | h) | h) | h) | h) | h) | h)
  · rcases mem_safeSetOf h with hf | ⟨w, hw⟩
    · exact absurd hf (by simp)
    · exact absurd hw (by simp)
  · obtain ⟨_, h⟩ := mem_if_list h
    simp only [List.mem_singleton] at h
    injection h with hk _
    exact Or.inl hk
  · obtain ⟨_, h⟩ := mem_if_list h
    simp only [List.mem_singleton] at h
    injection h with hk _
    exact Or.inr (Or.inl hk)
  · obtain ⟨_, h⟩ := mem_if_list h
    simp only [List.mem_singleton] at h
    injection h with hk _
    exact Or.inr (Or.inr (Or.inl hk))
  · injection h with hk _
    exact Or.inr (Or.inr (Or.inr (Or.inl hk)))
  · obtain ⟨_, h⟩ := mem_if_list h
    simp only [List.mem_singleton] at h
    injection h with hk _
    exact Or.inr (Or.inr (Or.inr (Or.inr (Or.inl hk))))
  · obtain ⟨hguard, h⟩ := mem_if_list h
    refine Or.inr (Or.inr (Or.inr (Or.inr (Or.inr ⟨hguard, ?_⟩))))
    simp only [List.mem_append] at h
    rcases h with (h | h) | h
    · rcases mem_rawSetOf h with hf | ⟨w, hw⟩
      · exact absurd hf (by simp)
      · injection hw with hk _
        exact Or.inl hk
    · rcases mem_rawSetOf h with hf | ⟨w, hw⟩
      · exact absurd hf (by simp)
      · injection hw with hk _
        exact Or.inr (Or.inl hk)
    · obtain ⟨he, h⟩ := mem_if_list h
      rcases mem_rawSetOf h with hf | ⟨w, hw⟩
      · exact absurd hf (by simp)
      · injection hw with hk _
        exact Or.inr (Or.inr ⟨hk, he⟩)

/-- C1: the sentinel null value `-999` is never encoded: `setBUFRvalue` makes
no `codes_set` call when its value is an `int`/`float` equal to the null
value, and each bare `codes_set` of a row-derived value in `setAWSvariables`
(the three sensor-height sets) occurs only when its source field(s) are not
the sentinel. -/
theorem sentinel_never_encoded :
    (∀ (o : Oracle) (b_name : String) (value : Value) (nullvalue : Int),
      pyEqInt value nullvalue = true →
        setBUFRvalue o b_name value nullvalue = []) ∧
    (∀ (r : Row) (v : Value),
      (Instr.rawSet "#2#heightOfSensorAboveLocalGroundOrDeckOfMarinePlatform" v
          ∈ setAWSvariables r →
        pyEqInt (r "HeightSensorBoom(m)") (-999) = false) ∧
      (Instr.rawSet "#8#heightOfSensorAboveLocalGroundOrDeckOfMarinePlatform" v
          ∈ setAWSvariables r →
        pyEqInt (r "HeightSensorBoom(m)") (-999) = false) ∧
      (Instr.rawSet "heightOfBarometerAboveMeanSeaLevel" v
          ∈ setAWSvariables r →
        pyEqInt (r "HeightSensorBoom(m)") (-999) = false ∧
          pyEqInt (r "ElevationGPS(m)") (-999) = false)) := by
  constructor
  · intro o b_name value nullvalue h
    simp [setBUFRvalue, h]
  · intro r v
    refine ⟨?_, ?_, ?_⟩ <;> intro hmem <;>
      rcases rawSet_mem_setAWSvariables hmem with
        h | h | h | h | h | ⟨hg, h⟩
    · exact absurd h (by decide)
    · exact absurd h (by decide)
    · exact absurd h (by decide)
    · exact absurd h (by decide)
    · exact absurd h (by decide)
    · simpa using hg
    · exact absurd h (by decide)
    · exact absurd h (by decide)
    · exact absurd h (by decide)
    · exact absurd h (by decide)
    · exact absurd h (by decide)
    · simpa using hg
    · exact absurd h (by decide)
    · exact absurd h (by decide)
    · exact absurd h (by decide)
    · exact absurd h (by decide)
    · exact absurd h (by decide)
    · rcases h with h | h | ⟨_, he⟩
      · exact absurd h (by decide)
      · exact absurd h (by decide)
      · exact ⟨by simpa using hg, by simpa using he⟩

theorem sentinel_never_encoded_witness :
    (pyEqInt (Value.vInt (-999)) (-999) = true ∧
      setBUFRvalue oracle0 "airTemperature" (Value.vInt (-999)) (-999) = []) ∧
    (Instr.rawSet "#2#heightOfSensorAboveLocalGroundOrDeckOfMarinePlatform"
          (Value.vFloat ((⟨3, 10⟩ : Frac).subF ⟨1, 10⟩))
        ∈ setAWSvariables testRow ∧
      pyEqInt (testRow "HeightSensorBoom(m)") (-999) = false) :=
  ⟨⟨by decide,
    sentinel_never_encoded.1 oracle0 "airTemperature" (Value.vInt (-999))
      (-999) (by decide)⟩,
   ⟨by decide,
    (sentinel_never_encoded.2 testRow
        (Value.vFloat ((⟨3, 10⟩ : Frac).subF ⟨1, 10⟩))).1 (by decide)⟩⟩

lemma write_not_mem_setBUFRvalue (o : Oracle) (k : String) (v : Value)
    (n : Int) : Event.write ∉ setBUFRvalue o k v n := by
  unfold setBUFRvalue
  split_ifs <;> simp

lemma runProg_no_write (o : Oracle) (p : List Instr) :
    Event.write ∉ (runProg o p).1 := by
  induction p with
  | nil => simp [runProg]
  | cons i rest ih =>
    cases i with
    | rawSet k v =>
      by_cases hc : o k v = true
      · simp [runProg, hc]
      · simp only [runProg, hc, if_false, Bool.false_eq_true, List.mem_cons]
        rintro (h | h)
        · exact absurd h (by simp)
        · exact ih h
    | safeSet k v =>
      simp only [runProg, List.mem_append]
      rintro (h | h)
      · exact write_not_mem_setBUFRvalue o k v (-999) h
      · exact ih h
    | fatalError => simp [runProg]

lemma countWrites_append (a b : List Event) :
    countWrites (a ++ b) = countWrites a + countWrites b := by
  induction a with
  | nil => simp [countWrites]
  | cons e rest ih =>
    cases e <;> simp [countWrites, ih] <;> omega

lemma countWrites_zero_of_no_write (es : List Event)
    (h : Event.write ∉ es) : countWrites es = 0 := by
  induction es with
  | nil => rfl
  | cons e rest ih =>
    cases e with
    | write => exact absurd (List.mem_cons_self _ _) h
    | newMessage =>
      exact ih (fun hm => h (List.mem_cons_of_mem _ hm))
    | set k v =>
      exact ih (fun hm => h (List.mem_cons_of_mem _ hm))
    | logError k =>
      exact ih (fun hm => h (List.mem_cons_of_mem _ hm))
    | logRow =>
      exact ih (fun hm => h (List.mem_cons_of_mem _ hm))
    | release =>
      exact ih (fun hm => h (List.mem_cons_of_mem _ hm))

lemma runProg_ok_of_rawFailFree (o : Oracle) (p : List Instr)
    (h1 : rawFailFree o p = true) (h2 : Instr.fatalError ∉ p) :
    (runProg o p).2 = RunResult.ok := by
  induction p with
  | nil => rfl
  | cons i rest ih =>
    cases i with
    | rawSet k v =>
      simp only [rawFailFree, Bool.and_eq_true, Bool.not_eq_true'] at h1
      simp only [runProg, h1.1, if_false, Bool.false_eq_true]
      exact ih h1.2 (fun hm => h2 (List.mem_cons_of_mem _ hm))
    | safeSet k v =>
      simp only [rawFailFree] at h1
      simp only [runProg]
      exact ih h1 (fun hm => h2 (List.mem_cons_of_mem _ hm))
    | fatalError => exact absurd (List.mem_cons_self _ _) h2

lemma runProg_rawSet_sets (o : Oracle) (p : List Instr)
    (h1 : rawFailFree o p = true) (h2 : Instr.fatalError ∉ p)
    (k : String) (v : Value) (hmem : Instr.rawSet k v ∈ p) :
    Event.set k v ∈ (runProg o p).1 := by
  induction p with
  | nil => cases hmem
  | cons i rest ih =>
    cases i with
    | rawSet k' v' =>
      simp only [rawFailFree, Bool.and_eq_true, Bool.not_eq_true'] at h1
      rcases List.mem_cons.mp hmem with heq | hmem'
      · injection heq with hk hv
        subst hk
        subst hv
        simp [runProg, h1.1]
      · simp only [runProg, h1.1, if_false, Bool.false_eq_true, List.mem_cons]
        exact Or.inr (ih h1.2 (fun hm => h2 (List.mem_cons_of_mem _ hm)) hmem')
    | safeSet k' v' =>
      rcases List.mem_cons.mp hmem with heq | hmem'
      · exact absurd heq (by simp)
      · simp only [rawFailFree] at h1
        simp only [runProg, List.mem_append]
        exact Or.inr
          (ih h1 (fun hm => h2 (List.mem_cons_of_mem _ hm)) hmem')
    | fatalError => exact absurd (List.mem_cons_self _ _) h2

lemma getBUFRloop_append (o : Oracle) (pre rows : List Row)
    (h : ∀ r ∈ pre, (encodeRow o r).2 ≠ RunResult.fatal) :
    getBUFRloop o (pre ++ rows) =
      ((pre.map (fun r => (encodeRow o r).1)).flatten ++
          (getBUFRloop o rows).1,
        (getBUFRloop o rows).2) := by
  induction pre with
  | nil => simp
  | cons r pre ih =>
    have hr := h r (List.mem_cons_self r pre)
    have hrest := fun r' hm => h r' (List.mem_cons_of_mem r hm)
    simp only [List.cons_append, getBUFRloop, hr, if_false, List.append_eq,
      ih hrest, List.map_cons]
    simp [List.append_assoc]

lemma countWrites_rowTrace (o : Oracle) (r : Row) :
    countWrites (Event.newMessage :: (runProg o (rowProg r)).1 ++
      [Event.write, Event.release]) = 1 := by
  have h0 := countWrites_zero_of_no_write _ (runProg_no_write o (rowProg r))
  show countWrites ((runProg o (rowProg r)).1 ++ [Event.write, Event.release])
    = 1
  rw [countWrites_append, h0]
  rfl

/-- C2 (counterexample): with an eccodes behaviour that raises exactly on the
bare `codes_set` of `#1#timeSignificance`, that one field error prevents the
remaining fields (`#2#timeSignificance`, the sensor heights, `pack`) from
being set and the message from being written, although in an error-free run
they are all set and the message is written. -/
theorem field_error_prevents_rest_cex :
    (runProg oracle1 (rowProg testRow)).2 = RunResult.raised ∧
    Event.set "#2#timeSignificance" (Value.vInt 2)
        ∉ (encodeRow oracle1 testRow).1 ∧
    Event.set "pack" (Value.vInt 1) ∉ (encodeRow oracle1 testRow).1 ∧
    Event.write ∉ (encodeRow oracle1 testRow).1 ∧
    Event.set "#2#timeSignificance" (Value.vInt 2)
        ∈ (encodeRow oracle0 testRow).1 ∧
    Event.set "pack" (Value.vInt 1) ∈ (encodeRow oracle0 testRow).1 ∧
    Event.write ∈ (encodeRow oracle0 testRow).1 := by decide

/-- C2 (amended): only the errors raised inside `setBUFRvalue` are caught per
field: when the oracle raises on no bare `codes_set` call of the row program
and the row raises no Python-level error, the row still encodes with outcome
`ok`, every bare `codes_set` (including `pack`) is still performed, and the
message is still written — no matter which `setBUFRvalue` fields failed. -/
theorem safeSet_error_only_skips_field (o : Oracle) (r : Row)
    (h1 : rawFailFree o (rowProg r) = true)
    (h2 : Instr.fatalError ∉ rowProg r) :
    (runProg o (rowProg r)).2 = RunResult.ok ∧
    (∀ k v, Instr.rawSet k v ∈ rowProg r →
      Event.set k v ∈ (encodeRow o r).1) ∧
    Event.write ∈ (encodeRow o r).1 := by
  have hok := runProg_ok_of_rawFailFree o (rowProg r) h1 h2
  have henc : (encodeRow o r).1 =
      Event.newMessage :: (runProg o (rowProg r)).1 ++
        [Event.write, Event.release] := by
    simp [encodeRow, hok]
  refine ⟨hok, ?_, ?_⟩
  · intro k v hm
    have hset := runProg_rawSet_sets o (rowProg r) h1 h2 k v hm
    rw [henc]
    exact List.mem_cons_of_mem _ (List.mem_append_left _ hset)
  · rw [henc]
    simp

theorem safeSet_error_only_skips_field_witness :
    (rawFailFree oracle2 (rowProg testRow) = true ∧
      Instr.fatalError ∉ rowProg testRow) ∧
    ((runProg oracle2 (rowProg testRow)).2 = RunResult.ok ∧
      (∀ k v, Instr.rawSet k v ∈ rowProg testRow →
        Event.set k v ∈ (encodeRow oracle2 testRow).1) ∧
      Event.write ∈ (encodeRow oracle2 testRow).1) :=
  ⟨⟨by decide, by decide⟩,
   safeSet_error_only_skips_field oracle2 testRow (by decide) (by decide)⟩

lemma countWrites_flatten_rows (o : Oracle) (rows : List Row)
    (h : ∀ r ∈ rows, (runProg o (rowProg r)).2 = RunResult.ok) :
    countWrites ((rows.map (fun r => (encodeRow o r).1)).flatten) =
      rows.length := by
  induction rows with
  | nil => rfl
  | cons r rest ih =>
    have hr := h r (List.mem_cons_self r rest)
    have henc : (encodeRow o r).1 =
        Event.newMessage :: (runProg o (rowProg r)).1 ++
          [Event.write, Event.release] := by
      simp [encodeRow, hr]
    rw [List.map_cons,
      show ((encodeRow o r).1 ::
          List.map (fun r => (encodeRow o r).1) rest).flatten =
        (encodeRow o r).1 ++
          (List.map (fun r => (encodeRow o r).1) rest).flatten from rfl,
      countWrites_append, henc, countWrites_rowTrace,
      ih (fun r' hm => h r' (List.mem_cons_of_mem _ hm))]
    simp [Nat.add_comm]

/-- C3: when no call raises, `getBUFR` processes the observation rows in
input order, each as a fresh message whose sets are followed by a write and a
release, and the output file receives exactly one message per row. -/
theorem getBUFR_one_message_per_row (o : Oracle) (df1 : List Row)
    (df2 : Lookup) (outBUFR : String)
    (h : ∀ r ∈ df1, (runProg o (rowProg r)).2 = RunResult.ok) :
    getBUFR o df1 df2 outBUFR =
      ((df1.map (fun r =>
          Event.newMessage :: (runProg o (rowProg r)).1 ++
            [Event.write, Event.release])).flatten, RunResult.ok) ∧
    countWrites (getBUFR o df1 df2 outBUFR).1 = df1.length := by
  have henc : ∀ r ∈ df1, (encodeRow o r).1 =
      Event.newMessage :: (runProg o (rowProg r)).1 ++
        [Event.write, Event.release] := by
    intro r hm
    simp [encodeRow, h r hm]
  have hfat : ∀ r ∈ df1, (encodeRow o r).2 ≠ RunResult.fatal := by
    intro r hm
    simp [encodeRow, h r hm]
  have hmain : getBUFR o df1 df2 outBUFR =
      ((df1.map (fun r => (encodeRow o r).1)).flatten, RunResult.ok) := by
    have happ := getBUFRloop_append o df1 [] hfat
    rw [List.append_nil] at happ
    unfold getBUFR
    rw [happ]
    simp [getBUFRloop]
  constructor
  · rw [hmain]
    exact congrArg (fun l => (List.flatten l, RunResult.ok))
      (List.map_congr_left henc)
  · rw [hmain]
    exact countWrites_flatten_rows o df1 h

theorem getBUFR_one_message_per_row_witness :
    (∀ r ∈ [testRow, nullRow],
      (runProg oracle0 (rowProg r)).2 = RunResult.ok) ∧
    (getBUFR oracle0 [testRow, nullRow] [] "out.bufr" =
      (([testRow, nullRow].map (fun r =>
          Event.newMessage :: (runProg oracle0 (rowProg r)).1 ++
            [Event.write, Event.release])).flatten, RunResult.ok) ∧
      countWrites (getBUFR oracle0 [testRow, nullRow] [] "out.bufr").1 =
        ([testRow, nullRow] : List Row).length) :=
  ⟨by decide,
   getBUFR_one_message_per_row oracle0 [testRow, nullRow] [] "out.bufr"
     (by decide)⟩

/-- C7: if the `try` body of a row raises `CodesInternalError`, `getBUFR`
logs it, writes nothing for that row, still releases the handle, continues
with the remaining rows, and the trace (hence the file content) of the
earlier rows is exactly what it was. -/
theorem getBUFR_skip_and_log (o : Oracle) (pre post : List Row) (r : Row)
    (df2 : Lookup) (outBUFR : String)
    (hr : (runProg o (rowProg r)).2 = RunResult.raised)
    (hpre : ∀ r' ∈ pre, (encodeRow o r').2 ≠ RunResult.fatal) :
    getBUFR o (pre ++ r :: post) df2 outBUFR =
      ((pre.map (fun r' => (encodeRow o r').1)).flatten ++
        ((Event.newMessage :: (runProg o (rowProg r)).1 ++
            [Event.logRow, Event.release]) ++ (getBUFRloop o post).1),
        (getBUFRloop o post).2) ∧
    Event.write ∉ (encodeRow o r).1 ∧
    Event.logRow ∈ (encodeRow o r).1 ∧
    Event.release ∈ (encodeRow o r).1 := by
  have henc : (encodeRow o r).1 =
      Event.newMessage :: (runProg o (rowProg r)).1 ++
        [Event.logRow, Event.release] := by
    simp [encodeRow, hr]
  have henc2 : (encodeRow o r).2 = RunResult.raised := by
    simp [encodeRow, hr]
  refine ⟨?_, ?_, ?_, ?_⟩
  · have happ := getBUFRloop_append o pre (r :: post) hpre
    have hstep : getBUFRloop o (r :: post) =
        ((encodeRow o r).1 ++ (getBUFRloop o post).1,
          (getBUFRloop o post).2) := by
      simp [getBUFRloop, henc2]
    unfold getBUFR
    rw [happ, hstep, henc]
  · rw [henc]
    intro hmem
    rcases List.mem_cons.mp hmem with heq | hmem'
    · exact absurd heq (by simp)
    · rcases List.mem_append.mp hmem' with hp | hlr
      · exact runProg_no_write o (rowProg r) hp
      · simp at hlr
  · rw [henc]
    simp
  · rw [henc]
    simp

theorem getBUFR_skip_and_log_witness :
    ((runProg oracle1 (rowProg testRow)).2 = RunResult.raised ∧
      (∀ r' ∈ [nullRow], (encodeRow oracle1 r').2 ≠ RunResult.fatal)) ∧
    (getBUFR oracle1 ([nullRow] ++ testRow :: [nullRow]) [] "out.bufr" =
      (([nullRow].map (fun r' => (encodeRow oracle1 r').1)).flatten ++
        ((Event.newMessage :: (runProg oracle1 (rowProg testRow)).1 ++
            [Event.logRow, Event.release]) ++
          (getBUFRloop oracle1 [nullRow]).1),
        (getBUFRloop oracle1 [nullRow]).2) ∧
      Event.write ∉ (encodeRow oracle1 testRow).1 ∧
      Event.logRow ∈ (encodeRow oracle1 testRow).1 ∧
      Event.release ∈ (encodeRow oracle1 testRow).1) :=
  ⟨⟨by decide, by decide⟩,
   getBUFR_skip_and_log oracle1 [nullRow] [nullRow] testRow [] "out.bufr"
     (by decide) (by decide)⟩

/-- C4 (counterexample): with two discovered input files, the `__main__`
block produces only one output file (for the first input), because its loop
iterates over the slice `txtFiles[0:1]`. -/
theorem main_only_first_input_cex :
    (["AWS_data/KAN_hour_v01_2021.txt",
      "AWS_data/UPE_hour_v01_2021.txt"] : List String).length = 2 ∧
    mainOutputs ["AWS_data/KAN_hour_v01_2021.txt",
      "AWS_data/UPE_hour_v01_2021.txt"] = ["KAN_hour.bufr"] ∧
    (mainOutputs ["AWS_data/KAN_hour_v01_2021.txt",
      "AWS_data/UPE_hour_v01_2021.txt"]).length ≠ 2 := by decide

/-- C4 (amended): exactly the first discovered input file is converted (the
loop slices `txtFiles[0:1]`); its single output is named by dropping the
basename's `.txt` suffix and nine further characters and appending `.bufr`,
and the message template sets BUFR edition 4. -/
theorem main_first_file_one_output (f : String) (rest : List String)
    (ts : Timestamp) :
    mainOutputs (f :: rest) = [bufrNameOf f] ∧
    mainOutputs [] = [] ∧
    Instr.rawSet "edition" (Value.vInt 4) ∈ setTemplate ts ∧
    bufrNameOf "AWS_data/KAN_hour_v01_2021.txt" = "KAN_hour.bufr" ∧
    Event.set "edition" (Value.vInt 4) ∈ (encodeRow oracle0 testRow).1 := by
  refine ⟨rfl, rfl, ?_, by decide, by decide⟩
  simp [setTemplate]
